import Mathlib

/-!
Verification development for the AWS ECS executor plugin
(`covalent_ecs_plugin/ecs.py`, with near-identical lifecycle code in
`covalent_fargate_plugin/fargate.py`).

The Python source is shallowly embedded: boto3 responses become explicit
structures, the paginated `list_tasks`/`describe_tasks` protocol becomes a
list of pages plus a describe function, `os.environ` becomes an explicit
environment record threaded through `execute`, and remote side effects are
recorded in an explicit event trace.  Python exceptions become `Except`
values; notably, the `try… except KeyError` in `get_status` catches only
`KeyError`, so an `IndexError` from indexing an empty container list
propagates and is modelled as an `Except.error`.
-/

namespace ECSPlugin

/-- A container entry of a `describe_tasks` response
(`ecs.py`, consumed at line 494).  `exitCode = none` models a container
dict without an `"exitCode"` key. -/
structure ContainerInfo where
  exitCode : Option Int
deriving Repr, DecidableEq

/-- One task of a `describe_tasks` response (`ecs.py` lines 489-498).
`containers = none` models a task dict without a `"containers"` key;
`containers = some []` models a present-but-empty container list. -/
structure TaskDesc where
  taskArn : String
  lastStatus : String
  containers : Option (List ContainerInfo)
deriving Repr, DecidableEq

/-- One page of the paginated `list_tasks` listing (`ecs.py` lines
473-482). -/
structure EcsPage where
  taskArns : List String
deriving Repr, DecidableEq

/-- The remote ECS service as observed by one `get_status` call: the pages
of the `STOPPED`-filtered `list_tasks` listing, and the `describe_tasks`
endpoint. -/
structure EcsService where
  pages : List EcsPage
  describe : List String → List TaskDesc

/-- Python exceptions that can escape the embedded code paths. -/
inductive PyErr where
  /-- `IndexError`: raised by `task["containers"][0]` on an empty list and
  not caught by the `except KeyError` handler (`ecs.py` lines 493-496). -/
  | indexError
deriving Repr, DecidableEq

/-- `exit_code = int(task["containers"][0]["exitCode"])` under
`try … except KeyError: exit_code = -1` (`ecs.py` lines 493-496).
A missing `"containers"` key or a missing `"exitCode"` key raises
`KeyError`, which is caught and yields `-1`; an empty container list
raises `IndexError`, which the handler does not catch. -/
def extractExitCode (task : TaskDesc) : Except PyErr Int :=
  match task.containers with
  | none => .ok (-1)
  | some [] => .error .indexError
  | some (c :: _) =>
    match c.exitCode with
    | none => .ok (-1)
    | some e => .ok e

/-- The page loop of `get_status` (`ecs.py` lines 480-500), over an
explicit list of remaining pages.  Returns the list of `describe_tasks`
call arguments (the examined pages' task ARN lists, in order) together
with the Python function's result: the `(status, exit_code)` pair, or the
propagated exception.  The loop `break`s on the first page with an empty
`taskArns` list, before calling `describe_tasks` on it. -/
def get_status_aux (svc : EcsService) (task_arn : String) :
    List EcsPage → List (List String) × Except PyErr (String × Int)
  | [] => ([], .ok ("TASK_NOT_FOUND", -1))
  | page :: rest =>
    if page.taskArns.length = 0 then
      ([], .ok ("TASK_NOT_FOUND", -1))
    else
      match (svc.describe page.taskArns).find?
          (fun t => t.taskArn == task_arn) with
      | some t =>
        ([page.taskArns],
          match extractExitCode t with
          | .error e => .error e
          | .ok code => .ok (t.lastStatus, code))
      | none =>
        (page.taskArns :: (get_status_aux svc task_arn rest).1,
          (get_status_aux svc task_arn rest).2)

/-- `ECSExecutor.get_status` (`ecs.py` lines 461-500). -/
def get_status (svc : EcsService) (task_arn : String) :
    Except PyErr (String × Int) :=
  (get_status_aux svc task_arn svc.pages).2

/-- The page ARN lists actually passed to `describe_tasks` during one
`get_status` call. -/
def describedPages (svc : EcsService) (task_arn : String) :
    List (List String) :=
  (get_status_aux svc task_arn svc.pages).1

/-- Outcome of the polling loop `_poll_ecs_task`
(`ecs.py` lines 502-520). -/
inductive PollOutcome where
  /-- The loop returned normally: terminal status with exit code 0. -/
  | completed
  /-- `raise Exception(f"Task failed with exit code {exit_code}.")`
  (`ecs.py` line 520): terminal status with a nonzero exit code. -/
  | taskFailed (code : Int)
  /-- An exception propagated out of `get_status`. -/
  | statusError (e : PyErr)
  /-- The loop was still polling when the snapshot sequence ended. -/
  | outOfTrace
deriving Repr, DecidableEq

/-- Observable events of one `execute` call, in program order. -/
inductive Ev where
  /-- `os.environ["AWS_SHARED_CREDENTIALS_FILE"] = self.credentials`
  (`ecs.py` line 228). -/
  | envSetCredentials (v : String)
  /-- `os.environ["AWS_PROFILE"] = self.profile` (`ecs.py` line 229). -/
  | envSetProfile (v : String)
  /-- `sts.get_caller_identity()` inside `_get_aws_account`
  (`ecs.py` lines 202-207). -/
  | getCallerIdentity
  /-- `self._package_and_upload(...)` (`ecs.py` line 243): S3 upload of
  the call artifact, image build and ECR push. -/
  | packageAndUpload
  /-- `ecs.register_task_definition(...)` (`ecs.py` line 259). -/
  | registerTaskDefinition
  /-- `ecs.run_task(...)` (`ecs.py` line 287). -/
  | runTask
  /-- One `self.get_status(ecs, task_arn)` call (`ecs.py` lines
  513, 517). -/
  | getStatusQuery
  /-- `time.sleep(self.poll_freq)` (`ecs.py` line 516). -/
  | sleepEv (freq : Nat)
  /-- `s3.download_file(...)` at the start of `_query_result`
  (`ecs.py` line 540): the result artifact is fetched. -/
  | fetchResult
deriving Repr, DecidableEq

/-- `ECSExecutor._poll_ecs_task` (`ecs.py` lines 502-520), run against an
explicit sequence of service snapshots, one snapshot per `get_status`
call (the remote listing may change between polls).  Returns the trace of
`get_status` queries and `time.sleep(poll_freq)` calls together with the
loop's outcome. -/
def _poll_ecs_task (poll_freq : Nat) (task_arn : String) :
    List EcsService → List Ev × PollOutcome
  | [] => ([], .outOfTrace)
  | svc :: rest =>
    match get_status svc task_arn with
    | .error e => ([.getStatusQuery], .statusError e)
    | .ok (status, exit_code) =>
      if status = "STOPPED" then
        ([.getStatusQuery],
          if exit_code = 0 then .completed else .taskFailed exit_code)
      else
        (Ev.getStatusQuery :: Ev.sleepEv poll_freq ::
            ( _poll_ecs_task poll_freq task_arn rest).1,
          ( _poll_ecs_task poll_freq task_arn rest).2)

/-- Failure mode of `pickle.load` (`ecs.py` line 542). -/
inductive PickleError where
  | deserializationError
deriving Repr, DecidableEq

/-- `"".join(event["message"] + "\n" for event in events)`
(`ecs.py` line 551). -/
def formatLogEvents (events : List String) : String :=
  String.join (events.map (fun message => message ++ "\n"))

/-- Result of `_query_result`: the Python return value (or propagated
exception) plus whether `os.remove(local_result_filename)` was reached. -/
structure QueryOutput (α : Type) where
  result : Except PickleError (α × String × String)
  removedLocalFile : Bool
deriving Repr

/-- `ECSExecutor._query_result` (`ecs.py` lines 522-552).  The S3 download
is assumed to succeed and `loadResult` is the outcome of
`pickle.load(f)`; the log events are the messages returned by
`logs.get_log_events(...)["events"]`.  In the source, `os.remove` at line
543 runs only after `pickle.load` at line 542 returned: there is no
`try`/`finally`, so a deserialization failure propagates before the
removal. -/
def _query_result {α : Type} (loadResult : Except PickleError α)
    (events : List String) : QueryOutput α :=
  match loadResult with
  | .error e => { result := .error e, removedLocalFile := false }
  | .ok r =>
    { result := .ok (r, formatLogEvents events, ""),
      removedLocalFile := true }

/-- The executor configuration fields consumed by the embedded part of
`execute` (`ecs.py` lines 152-197). -/
structure Config where
  credentials : String
  profile : String
  poll_freq : Nat
deriving Repr, DecidableEq

/-- The two process-wide environment variables written by `execute`
(`ecs.py` lines 228-229).  `none` models an unset variable. -/
structure Env where
  aws_shared_credentials_file : Option String
  aws_profile : Option String
deriving Repr, DecidableEq

/-- The external-world inputs of one `execute` call: the resolved caller
identity (`identity.get("Account")` and the raw identity blob), the task
ARN returned by `run_task`, the service snapshots observed by the poll
loop, and the result-artifact / log-retrieval outcomes. -/
structure ExecInput (α : Type) where
  account : Option String
  identityBlob : String
  taskArn : String
  pollSnapshots : List EcsService
  loadResult : Except PickleError α
  logEvents : List String

/-- Outcome of one `execute` call (`ecs.py` lines 209-309). -/
inductive ExecOutcome (α : Type) where
  /-- A normal `return`: `(None, "", identity)` on the missing-account
  path (line 237), or `(result, logs, "")` from `_query_result`
  (line 309). -/
  | returned (result : Option α) (logs : String) (third : String)
  /-- The `Exception` raised by `_poll_ecs_task` for a nonzero exit
  code. -/
  | raisedTaskFailed (code : Int)
  /-- An exception propagated out of `get_status` during polling. -/
  | raisedStatus (e : PyErr)
  /-- A `pickle.load` failure propagated out of `_query_result`. -/
  | raisedPickle (e : PickleError)
  /-- The poll loop was still running when the snapshot sequence ended. -/
  | outOfTrace
deriving Repr, DecidableEq

/-- The remote-interaction tail of `execute` (`ecs.py` lines 232-309):
everything after the two environment-variable writes and the
`sts.get_caller_identity()` call.  If the account is `None` the function
returns `(None, "", identity)` at line 237 without uploading, registering
or launching anything; otherwise it packages and uploads the task,
registers the task definition, runs the task, polls it, and finally
queries the result. -/
def executeRemote {α : Type} (cfg : Config) (inp : ExecInput α) :
    List Ev × ExecOutcome α :=
  match inp.account with
  | none => ([], .returned none "" inp.identityBlob)
  | some _ =>
    let head := [Ev.packageAndUpload, Ev.registerTaskDefinition, Ev.runTask]
    let poll := _poll_ecs_task cfg.poll_freq inp.taskArn inp.pollSnapshots
    match poll.2 with
    | .completed =>
      match ( _query_result inp.loadResult inp.logEvents).result with
      | .ok (r, logs, third) =>
        (head ++ poll.1 ++ [Ev.fetchResult], .returned (some r) logs third)
      | .error e =>
        (head ++ poll.1 ++ [Ev.fetchResult], .raisedPickle e)
    | .taskFailed c => (head ++ poll.1, .raisedTaskFailed c)
    | .statusError e => (head ++ poll.1, .raisedStatus e)
    | .outOfTrace => (head ++ poll.1, .outOfTrace)

/-- `ECSExecutor.execute` (`ecs.py` lines 209-309).  The first two steps
overwrite the process-wide environment variables
`AWS_SHARED_CREDENTIALS_FILE` and `AWS_PROFILE` with this instance's
configuration (lines 228-229), unconditionally and regardless of the
previous environment `env0`; then `_get_aws_account` resolves the caller
identity (line 232), and the rest proceeds as `executeRemote`. -/
def execute {α : Type} (cfg : Config) (inp : ExecInput α) (_env0 : Env) :
    Env × List Ev × ExecOutcome α :=
  ({ aws_shared_credentials_file := some cfg.credentials,
     aws_profile := some cfg.profile },
   [Ev.envSetCredentials cfg.credentials, Ev.envSetProfile cfg.profile,
     Ev.getCallerIdentity] ++ (executeRemote cfg inp).1,
   (executeRemote cfg inp).2)

/-- Modelled from the spec: hexadecimal digit, for the identifier-shape
check of the network placement (spec §4.3 and §8 "Validation gate"). -/
def isHexDigitChar (c : Char) : Bool :=
  (('0' ≤ c) && (c ≤ '9')) || (('a' ≤ c) && (c ≤ 'f'))

/-- Modelled from the spec: "the platform's known identifier shape
(e.g., `subnet-` or `sg-` followed by a hex string …)", with the length
fixed to 8 by the spec's validation-gate examples (`"subnet-871545e"`
with 7 hex characters rejected, `"subnet-871545e1"` with 8 accepted). -/
def matchesIdShape (pre : String) (s : String) : Bool :=
  (s.data.take pre.data.length == pre.data)
    && ((s.data.drop pre.data.length).length == 8)
    && (s.data.drop pre.data.length).all isHexDigitChar

/-- Modelled from the spec: the `ECSExecutor._is_valid_subnet_id` helper
exercised by `tests/test_ecs.py` is not present in the source files under
review; per the spec, a subnet identifier is well-formed exactly when it
is `subnet-` followed by 8 hexadecimal characters. -/
def _is_valid_subnet_id (subnet_id : String) : Bool :=
  matchesIdShape "subnet-" subnet_id

/-- Modelled from the spec: the `ECSExecutor._is_valid_security_group`
helper exercised by `tests/test_ecs.py` is not present in the source
files under review; per the spec, a security-group identifier is
well-formed exactly when it is `sg-` followed by 8 hexadecimal
characters. -/
def _is_valid_security_group (security_group : String) : Bool :=
  matchesIdShape "sg-" security_group

/-- Modelled from the spec: the submission path validates the network
placement identifiers before any remote submission call (spec §4.3
precondition and §7 `ConfigurationError`); a malformed identifier is
rejected locally and neither `register_task_definition` nor `run_task`
is attempted.  Returned are the submission events performed and the
result (a `ConfigurationError` message on rejection). -/
def submitWithValidation (subnet_id security_group_id : String) :
    List Ev × Except String Unit :=
  if _is_valid_subnet_id subnet_id = false then
    ([], .error (subnet_id ++ " is not a valid subnet id"))
  else if _is_valid_security_group security_group_id = false then
    ([], .error (security_group_id ++ " is not a valid security group id"))
  else
    ([Ev.registerTaskDefinition, Ev.runTask], .ok ())

end ECSPlugin

namespace ECSPlugin

/-! ## Helper lemmas -/

/-- The polling loop only emits status queries and sleeps; it never
fetches the result artifact itself. -/
lemma poll_no_fetchResult (poll_freq : Nat) (task_arn : String) :
    ∀ svcs : List EcsService,
      Ev.fetchResult ∉ ( _poll_ecs_task poll_freq task_arn svcs).1
  | [] => by simp [ _poll_ecs_task]
  | svc :: rest => by
    have ih := poll_no_fetchResult poll_freq task_arn rest
    cases hg : get_status svc task_arn with
    | error e => simp [ _poll_ecs_task, hg]
    | ok p =>
      obtain ⟨st, c⟩ := p
      by_cases hst : st = "STOPPED"
      · simp [ _poll_ecs_task, hg, hst]
      · simp [ _poll_ecs_task, hg, hst, ih]

/-- Running the poll loop through a run prefix of in-progress
observations followed by a `STOPPED` observation with exit code `e`
yields `completed` for `e = 0` and `taskFailed e` otherwise. -/
lemma poll_through (poll_freq : Nat) (task_arn : String) (e : Int)
    (pre : List EcsService) (svc : EcsService) (rest : List EcsService)
    (hpre : ∀ s ∈ pre, ∃ st c,
      get_status s task_arn = Except.ok (st, c) ∧ st ≠ "STOPPED")
    (hstop : get_status svc task_arn = Except.ok ("STOPPED", e)) :
    ( _poll_ecs_task poll_freq task_arn (pre ++ svc :: rest)).2 =
      if e = 0 then PollOutcome.completed else PollOutcome.taskFailed e := by
  induction pre with
  | nil =>
    simp only [List.nil_append, _poll_ecs_task, hstop]
    simp
  | cons s pre ih =>
    obtain ⟨st, c, hs, hne⟩ := hpre s (by simp)
    have ih' := ih (fun s' hs' => hpre s' (List.mem_cons_of_mem _ hs'))
    simp only [List.cons_append, _poll_ecs_task, hs]
    rw [if_neg hne]
    exact ih'

/-- The page loop of `get_status` reports `TASK_NOT_FOUND` when no
examined page's described tasks match the tracked ARN. -/
lemma get_status_aux_not_found (svc : EcsService) (task_arn : String) :
    ∀ pages : List EcsPage,
      (∀ page ∈ pages,
        (svc.describe page.taskArns).find?
          (fun t => t.taskArn == task_arn) = none) →
      (get_status_aux svc task_arn pages).2 =
        Except.ok ("TASK_NOT_FOUND", -1)
  | [], _ => rfl
  | page :: rest, h => by
    by_cases hlen : page.taskArns.length = 0
    · simp [get_status_aux, hlen]
    · simp only [get_status_aux, if_neg hlen, h page (by simp)]
      exact get_status_aux_not_found svc task_arn rest
        (fun p hp => h p (List.mem_cons_of_mem _ hp))

/-! ## Concrete witness inputs -/

/-- A service snapshot whose stopped listing contains the tracked handle
`"task-arn/1"` described as `RUNNING`. -/
def svcRunning : EcsService :=
  { pages := [⟨["task-arn/1"]⟩],
    describe := fun _ =>
      [{ taskArn := "task-arn/1", lastStatus := "RUNNING",
         containers := some [⟨some 1⟩] }] }

/-- A service snapshot describing the tracked handle `"task-arn/1"` as
`STOPPED` with exit code 137. -/
def svcStopped137 : EcsService :=
  { pages := [⟨["task-arn/1"]⟩],
    describe := fun _ =>
      [{ taskArn := "task-arn/1", lastStatus := "STOPPED",
         containers := some [⟨some 137⟩] }] }

/-- A service snapshot describing the tracked handle `"task-arn/1"` as
`STOPPED` with a task dict that has no `"containers"` key. -/
def svcNoContainers : EcsService :=
  { pages := [⟨["task-arn/1"]⟩],
    describe := fun _ =>
      [{ taskArn := "task-arn/1", lastStatus := "STOPPED",
         containers := none }] }

/-- A service snapshot describing the tracked handle `"task-arn/1"` as
`STOPPED` with a present-but-empty container list. -/
def svcEmptyContainers : EcsService :=
  { pages := [⟨["task-arn/1"]⟩],
    describe := fun _ =>
      [{ taskArn := "task-arn/1", lastStatus := "STOPPED",
         containers := some [] }] }

/-- A service snapshot whose stopped listing only contains an unrelated
handle. -/
def svcOtherTask : EcsService :=
  { pages := [⟨["other-arn"]⟩],
    describe := fun _ =>
      [{ taskArn := "other-arn", lastStatus := "STOPPED",
         containers := some [⟨some 0⟩] }] }

/-- A service snapshot whose listing starts with an empty page followed
by a further page. -/
def svcEmptyFirstPage : EcsService :=
  { pages := [⟨[]⟩, ⟨["task-arn/1"]⟩],
    describe := fun _ =>
      [{ taskArn := "task-arn/1", lastStatus := "STOPPED",
         containers := some [⟨some 0⟩] }] }

/-- Configuration used by the concrete witnesses. -/
def cfgW : Config :=
  { credentials := "/home/user/.aws/credentials", profile := "default",
    poll_freq := 10 }

/-- Execute-call input for scenario B: one `RUNNING` observation, then
`STOPPED` with exit code 137. -/
def inpStopped137 : ExecInput Nat :=
  { account := some "123456789012", identityBlob := "identity",
    taskArn := "task-arn/1", pollSnapshots := [svcRunning, svcStopped137],
    loadResult := Except.ok 42, logEvents := [] }

/-- Execute-call input whose caller identity has no account. -/
def inpNoAccount : ExecInput Nat :=
  { account := none, identityBlob := "unauthorized-identity",
    taskArn := "task-arn/1", pollSnapshots := [],
    loadResult := Except.ok 0, logEvents := [] }

/-- An unset starting environment. -/
def envEmpty : Env :=
  { aws_shared_credentials_file := none, aws_profile := none }

end ECSPlugin

namespace ECSPlugin

/-! ## Claims -/

/-- Claim C1: for every run in which the poll loop observes terminal
status `STOPPED` with an exit code `e`, polling returns successfully if
and only if `e = 0`; for any `e ≠ 0` the run raises an error carrying
exit code `e`, and the result artifact is never fetched. -/
theorem claim_C1_stopped_exit_code_gates_fetch {α : Type} (cfg : Config)
    (inp : ExecInput α) (env0 : Env) (pre : List EcsService)
    (svc : EcsService) (rest : List EcsService) (e : Int) (acct : String)
    (hacct : inp.account = some acct)
    (hsnap : inp.pollSnapshots = pre ++ svc :: rest)
    (hpre : ∀ s ∈ pre, ∃ st c,
      get_status s inp.taskArn = Except.ok (st, c) ∧ st ≠ "STOPPED")
    (hstop : get_status svc inp.taskArn = Except.ok ("STOPPED", e)) :
    (( _poll_ecs_task cfg.poll_freq inp.taskArn inp.pollSnapshots).2 =
        PollOutcome.completed ↔ e = 0) ∧
    (e ≠ 0 →
      (execute cfg inp env0).2.2 = ExecOutcome.raisedTaskFailed e ∧
      Ev.fetchResult ∉ (execute cfg inp env0).2.1) ∧
    (e = 0 → Ev.fetchResult ∈ (execute cfg inp env0).2.1) := by
  have hpoll : ( _poll_ecs_task cfg.poll_freq inp.taskArn
      inp.pollSnapshots).2 =
      if e = 0 then PollOutcome.completed
      else PollOutcome.taskFailed e := by
    rw [hsnap]
    exact poll_through cfg.poll_freq inp.taskArn e pre svc rest hpre hstop
  have hnof := poll_no_fetchResult cfg.poll_freq inp.taskArn
    inp.pollSnapshots
  refine ⟨?_, ?_, ?_⟩
  · rw [hpoll]
    rcases eq_or_ne e 0 with h0 | h0
    · simp [h0]
    · simp [h0]
  · intro hne
    simp only [execute, executeRemote, hacct]
    rw [hpoll, if_neg hne]
    refine ⟨rfl, ?_⟩
    simp only [List.mem_append, List.mem_cons, List.not_mem_nil]
    push_neg
    exact ⟨⟨by simp, by simp, by simp⟩, ⟨by simp, by simp, by simp⟩, hnof⟩
  · intro h0
    simp only [execute, executeRemote, hacct]
    rw [hpoll, if_pos h0]
    cases hq : ( _query_result inp.loadResult inp.logEvents).result with
    | ok v =>
      obtain ⟨r, logs, third⟩ := v
      simp [hq]
    | error pe => simp [hq]

/-- Claim C1 witness (end-to-end scenario B): `RUNNING` then `STOPPED`
with exit code 137 makes `execute` raise the task-failed error carrying
137 and never fetch the result. -/
theorem claim_C1_witness :
    (execute cfgW inpStopped137 envEmpty).2.2 =
      ExecOutcome.raisedTaskFailed 137 ∧
    Ev.fetchResult ∉ (execute cfgW inpStopped137 envEmpty).2.1 :=
  (claim_C1_stopped_exit_code_gates_fetch cfgW inpStopped137 envEmpty
    [svcRunning] svcStopped137 [] 137 "123456789012" rfl rfl
    (by
      intro s hs
      rw [List.mem_singleton] at hs
      subst hs
      exact ⟨"RUNNING", 1, rfl, by decide⟩)
    rfl).2.1 (by decide)

/-- Claim C2 counterexample: with the tracked handle found in the stopped
listing and a present-but-empty container list, `get_status` does not
return exit code `-1`; the `IndexError` from `task["containers"][0]`
escapes the `except KeyError` handler, so the call raises. -/
theorem claim_C2_counterexample :
    get_status svcEmptyContainers "task-arn/1" =
      Except.error PyErr.indexError := rfl

/-- Claim C2 (amended): when `get_status` finds the tracked task handle
in the stopped listing and the matched task has no `"containers"` key, or
its first container lacks an `"exitCode"` field, `get_status` returns
exit code `-1` without raising (the empty-container-list case instead
raises an uncaught `IndexError`). -/
theorem claim_C2_missing_exit_code_defaults (svc : EcsService)
    (task_arn : String) (page : EcsPage) (rest : List EcsPage)
    (t : TaskDesc)
    (hpages : svc.pages = page :: rest)
    (hne : page.taskArns ≠ [])
    (hfind : (svc.describe page.taskArns).find?
      (fun d => d.taskArn == task_arn) = some t)
    (hc : t.containers = none ∨
      ∃ c cs, t.containers = some (c :: cs) ∧ c.exitCode = none) :
    get_status svc task_arn = Except.ok (t.lastStatus, -1) := by
  have hcode : extractExitCode t = Except.ok (-1) := by
    rcases hc with h | ⟨c, cs, hcs, hcode⟩
    · simp [extractExitCode, h]
    · simp [extractExitCode, hcs, hcode]
  simp [get_status, hpages, get_status_aux, hne, hfind, hcode]

/-- Claim C2 witness: a matched `STOPPED` task without a `"containers"`
key yields exit code `-1` without raising. -/
theorem claim_C2_witness :
    get_status svcNoContainers "task-arn/1" =
      Except.ok ("STOPPED", -1) :=
  claim_C2_missing_exit_code_defaults svcNoContainers "task-arn/1"
    ⟨["task-arn/1"]⟩ []
    { taskArn := "task-arn/1", lastStatus := "STOPPED",
      containers := none }
    rfl (by decide) rfl (Or.inl rfl)

/-- Claim C3: every subnet identifier that does not match the platform's
identifier shape (`subnet-` followed by 8 hex characters), and likewise
every malformed security-group identifier, makes the submission path
reject the configuration locally — no register/launch call is attempted —
while well-formed identifiers are accepted. -/
theorem claim_C3_validation_gate (subnet_id security_group_id : String) :
    (( _is_valid_subnet_id subnet_id = false ∨
        _is_valid_security_group security_group_id = false) →
      (∃ m, (submitWithValidation subnet_id security_group_id).2 =
        Except.error m) ∧
      Ev.registerTaskDefinition ∉
        (submitWithValidation subnet_id security_group_id).1 ∧
      Ev.runTask ∉
        (submitWithValidation subnet_id security_group_id).1) ∧
    ( _is_valid_subnet_id subnet_id = true →
      _is_valid_security_group security_group_id = true →
      (submitWithValidation subnet_id security_group_id).2 =
        Except.ok ()) := by
  constructor
  · intro h
    rcases h with h | h
    · simp [submitWithValidation, h]
    · by_cases hs : _is_valid_subnet_id subnet_id = false
      · simp [submitWithValidation, hs]
      · simp [submitWithValidation, hs, h]
  · intro hs hg
    simp [submitWithValidation, hs, hg]

/-- Claim C3 witness: `"subnet-871545e"` (7 hex characters) is rejected
before submission with no register/launch event, and
`"subnet-871545e1"` (8 hex characters) with `"sg-0043541a"` is
accepted. -/
theorem claim_C3_witness :
    (∃ m, (submitWithValidation "subnet-871545e" "sg-0043541a").2 =
      Except.error m) ∧
    Ev.registerTaskDefinition ∉
      (submitWithValidation "subnet-871545e" "sg-0043541a").1 ∧
    Ev.runTask ∉ (submitWithValidation "subnet-871545e" "sg-0043541a").1 ∧
    (submitWithValidation "subnet-871545e1" "sg-0043541a").2 =
      Except.ok () := by
  refine ⟨?_, ?_, ?_, ?_⟩
  · exact ((claim_C3_validation_gate "subnet-871545e" "sg-0043541a").1
      (Or.inl (by decide))).1
  · exact ((claim_C3_validation_gate "subnet-871545e" "sg-0043541a").1
      (Or.inl (by decide))).2.1
  · exact ((claim_C3_validation_gate "subnet-871545e" "sg-0043541a").1
      (Or.inl (by decide))).2.2
  · exact (claim_C3_validation_gate "subnet-871545e1" "sg-0043541a").2
      (by decide) (by decide)

/-- Claim C4: for every observed last-status value other than `STOPPED`,
the poll loop sleeps `poll_freq` and queries again without raising; it
exits the loop exactly when the observed status equals `STOPPED`, at
which point the exit code is interpreted (0 succeeds, nonzero fails). -/
theorem claim_C4_status_classification (poll_freq : Nat)
    (task_arn : String) (svc : EcsService) (rest : List EcsService)
    (st : String) (c : Int)
    (hg : get_status svc task_arn = Except.ok (st, c)) :
    (st ≠ "STOPPED" →
      _poll_ecs_task poll_freq task_arn (svc :: rest) =
        (Ev.getStatusQuery :: Ev.sleepEv poll_freq ::
            ( _poll_ecs_task poll_freq task_arn rest).1,
          ( _poll_ecs_task poll_freq task_arn rest).2)) ∧
    (st = "STOPPED" →
      _poll_ecs_task poll_freq task_arn (svc :: rest) =
        ([Ev.getStatusQuery],
          if c = 0 then PollOutcome.completed
          else PollOutcome.taskFailed c)) := by
  constructor
  · intro h
    simp [ _poll_ecs_task, hg, h]
  · intro h
    simp [ _poll_ecs_task, hg, h]

/-- Claim C4 witness: a `RUNNING` observation makes the loop sleep and
query again (here exhausting the snapshot trace, still in progress). -/
theorem claim_C4_witness :
    _poll_ecs_task 10 "task-arn/1" [svcRunning] =
      ([Ev.getStatusQuery, Ev.sleepEv 10], PollOutcome.outOfTrace) := by
  have h := (claim_C4_status_classification 10 "task-arn/1" svcRunning []
    "RUNNING" 1 rfl).1 (by decide)
  simpa [ _poll_ecs_task] using h

/-- Claim C5: if no examined page of the stopped-task listing contains
the tracked task handle, `get_status` returns `("TASK_NOT_FOUND", -1)`
without raising, and a mid-poll caller treats that outcome as
still-in-progress: it sleeps and polls again rather than erroring. -/
theorem claim_C5_not_found (svc : EcsService) (task_arn : String)
    (habs : ∀ page ∈ svc.pages,
      (svc.describe page.taskArns).find?
        (fun t => t.taskArn == task_arn) = none) :
    get_status svc task_arn = Except.ok ("TASK_NOT_FOUND", -1) ∧
    ∀ poll_freq (rest : List EcsService),
      _poll_ecs_task poll_freq task_arn (svc :: rest) =
        (Ev.getStatusQuery :: Ev.sleepEv poll_freq ::
            ( _poll_ecs_task poll_freq task_arn rest).1,
          ( _poll_ecs_task poll_freq task_arn rest).2) := by
  have hstat : get_status svc task_arn =
      Except.ok ("TASK_NOT_FOUND", -1) :=
    get_status_aux_not_found svc task_arn svc.pages habs
  refine ⟨hstat, ?_⟩
  intro poll_freq rest
  simp only [ _poll_ecs_task, hstat]
  rw [if_neg (by decide)]

/-- Claim C5 witness: a listing containing only an unrelated handle
yields `("TASK_NOT_FOUND", -1)` and one more sleep-and-poll step. -/
theorem claim_C5_witness :
    get_status svcOtherTask "task-arn/1" =
      Except.ok ("TASK_NOT_FOUND", -1) ∧
    _poll_ecs_task 10 "task-arn/1" [svcOtherTask] =
      ([Ev.getStatusQuery, Ev.sleepEv 10], PollOutcome.outOfTrace) := by
  have h := claim_C5_not_found svcOtherTask "task-arn/1" (by decide)
  exact ⟨h.1, by simpa [ _poll_ecs_task] using h.2 10 []⟩

/-- Claim C6: the page loop of `get_status` stops as soon as it meets a
page with an empty candidate-handle list: pages after an empty page
influence neither the `describe_tasks` call trace nor the result. -/
theorem claim_C6_empty_page_terminates (svc : EcsService)
    (task_arn : String) (before : List EcsPage) (p : EcsPage)
    (after : List EcsPage) (hp : p.taskArns = []) :
    get_status_aux svc task_arn (before ++ p :: after) =
      get_status_aux svc task_arn (before ++ [p]) := by
  induction before with
  | nil => simp [get_status_aux, hp]
  | cons q l ih =>
    by_cases hq : q.taskArns.length = 0
    · simp [get_status_aux, hq]
    · simp only [List.cons_append, get_status_aux, if_neg hq]
      cases hf : (svc.describe q.taskArns).find?
          (fun t => t.taskArn == task_arn) with
      | some t => rfl
      | none =>
        have ih' : get_status_aux svc task_arn (l.append (p :: after)) =
            get_status_aux svc task_arn (l.append [p]) := ih
        rw [ih']

/-- Claim C6 witness: with an empty first page, the pages after it are
never examined — dropping them changes nothing, and no page is ever
described. -/
theorem claim_C6_witness :
    get_status_aux svcEmptyFirstPage "task-arn/1"
        ([] ++ EcsPage.mk [] :: [EcsPage.mk ["task-arn/1"]]) =
      get_status_aux svcEmptyFirstPage "task-arn/1"
        ([] ++ [EcsPage.mk []]) :=
  claim_C6_empty_page_terminates svcEmptyFirstPage "task-arn/1" []
    (EcsPage.mk []) [EcsPage.mk ["task-arn/1"]] rfl

/-- Claim C7 counterexample: when deserialization of the downloaded
result fails, `_query_result` propagates the exception before reaching
`os.remove`, so the local staging copy is not deleted — the deletion is
not unconditional. -/
theorem claim_C7_counterexample :
    ( _query_result
      (Except.error PickleError.deserializationError :
        Except PickleError Nat) ["hello"]).removedLocalFile = false := rfl

/-- Claim C7 (amended): the result retrieval step deletes the local
staging copy exactly when deserialization succeeds; on deserialization
failure the exception propagates before `os.remove`, leaving the staging
copy in place. -/
theorem claim_C7_remove_iff_load_ok {α : Type}
    (loadResult : Except PickleError α) (events : List String) :
    ( _query_result loadResult events).removedLocalFile = true ↔
      ∃ r, loadResult = Except.ok r := by
  cases loadResult with
  | error e => simp [ _query_result]
  | ok r => simp [ _query_result]

/-- Claim C8: when the caller identity resolves to no account, `execute`
returns the error outcome `(None, "", identity)` immediately after the
single identity lookup — no artifact upload, no task-definition
registration, no task launch, no result fetch, and no retry. -/
theorem claim_C8_no_account_aborts {α : Type} (cfg : Config)
    (inp : ExecInput α) (env0 : Env) (hacct : inp.account = none) :
    (execute cfg inp env0).2.2 =
      ExecOutcome.returned none "" inp.identityBlob ∧
    (execute cfg inp env0).2.1 =
      [Ev.envSetCredentials cfg.credentials,
       Ev.envSetProfile cfg.profile, Ev.getCallerIdentity] ∧
    Ev.packageAndUpload ∉ (execute cfg inp env0).2.1 ∧
    Ev.registerTaskDefinition ∉ (execute cfg inp env0).2.1 ∧
    Ev.runTask ∉ (execute cfg inp env0).2.1 ∧
    Ev.fetchResult ∉ (execute cfg inp env0).2.1 := by
  simp [execute, executeRemote, hacct]

/-- Claim C8 witness: a concrete identity without an account makes
`execute` return the identity blob as the error outcome with only the
environment writes and the identity lookup in its trace. -/
theorem claim_C8_witness :
    (execute cfgW inpNoAccount envEmpty).2.2 =
      ExecOutcome.returned none "" "unauthorized-identity" ∧
    (execute cfgW inpNoAccount envEmpty).2.1 =
      [Ev.envSetCredentials "/home/user/.aws/credentials",
       Ev.envSetProfile "default", Ev.getCallerIdentity] := by
  have h := claim_C8_no_account_aborts cfgW inpNoAccount envEmpty rfl
  exact ⟨h.1, h.2.1⟩

/-- Claim C9: when log retrieval returns exactly the two events
`"hello"` then `"world"`, the log text returned by the result retrieval
step equals `"hello\nworld\n"`: each message suffixed with one newline,
concatenated in event order. -/
theorem claim_C9_log_formatting {α : Type} (r : α) :
    ( _query_result (Except.ok r) ["hello", "world"]).result =
      Except.ok (r, "hello\nworld\n", "") := rfl

/-- Claim C10: every `execute` call, for every input and every prior
environment, first overwrites the process-wide `AWS_SHARED_CREDENTIALS_FILE`
and `AWS_PROFILE` variables with this instance's configured credentials
path and profile — the two writes precede every remote call in the
trace, and the resulting environment is independent of `env0`. -/
theorem claim_C10_env_overwrite {α : Type} (cfg : Config)
    (inp : ExecInput α) (env0 : Env) :
    (execute cfg inp env0).1 =
      { aws_shared_credentials_file := some cfg.credentials,
        aws_profile := some cfg.profile } ∧
    ∃ rest, (execute cfg inp env0).2.1 =
      Ev.envSetCredentials cfg.credentials ::
        Ev.envSetProfile cfg.profile :: Ev.getCallerIdentity :: rest :=
  ⟨rfl, (executeRemote cfg inp).1, rfl⟩

end ECSPlugin
